import Mathlib

/-!
Verification of the core of `spook` (file watcher with command runner and
Server-Sent-Events broadcast) against its source.

Shallow embedding conventions:
* Pure control flow is translated function-by-function from the Rust source
  (`src/main.rs`, `src/server.rs`).
* External effects (launching the sub-command, the mpsc `send`, socket reads
  and writes, re-arming a file watch) are passed in as explicit oracles: a
  value or function describing the outcome the environment produced, so the
  embedded functions stay executable.
* The subscriber registry `Vec<Sender<()>>` is a `List α` for an arbitrary
  sender type `α`; `tx.send(()).is_ok()` is an oracle `sendOk : α → Bool`
  (a send on an mpsc channel succeeds iff the receiver is still alive).
* The mutex around the registry (main.rs:205) is represented by the fact that
  the whole drain/filter/replace is a single atomic step of the embedding.
-/

namespace Spook

/-- `env!("CARGO_PKG_NAME")` for this crate (repository `spook`). -/
def CMD_NAME : String := "spook"

/-- `EVENT_PATH` constant, main.rs:19. -/
def EVENT_PATH : String := "/events"

/-- Outcome of `cmd.status()` (std::process::Command): either the launch
failed (`Err`), or the child ran to completion with some exit status.
`status()` blocks until the child exits, so "exited" covers the whole
start-and-wait step of main.rs:199. -/
inductive CmdOutcome
  | launchFailed
  | exited (status : Int)
deriving DecidableEq

/-- Result of one call of `update` (main.rs:179-210): the registry contents
after the call (`none` when broadcasting is not configured), the list of
senders on which a send was attempted, and the returned `Result<(), String>`. -/
structure UpdateResult (α : Type) where
  registry : Option (List α)
  sends : List α
  result : Except String Unit

/-- Embedding of `update` (main.rs:179-210).

`subCmd` is `None` when no command is configured, otherwise the outcome of
`cmd.status()` for this call. `eventTxList` is `None` when broadcasting is not
configured, otherwise the current registry contents. The verbose `println!`
calls (main.rs:185-195) do not affect control flow and are omitted.

Stage 1 (main.rs:198-201): if a command is configured and its launch failed,
return `Err("[spook] Failed to run command")` early; the exit status of a
launched child is discarded.

Stage 2 (main.rs:204-207): if broadcasting is configured, lock the registry,
attempt `tx.send(())` on every drained entry, and replace the registry with
the entries whose send succeeded, in order (`drain(..).filter(..).collect()`). -/
def update {α : Type} (subCmd : Option CmdOutcome) (eventTxList : Option (List α))
    (sendOk : α → Bool) : UpdateResult α :=
  match subCmd with
  | some CmdOutcome.launchFailed =>
      { registry := eventTxList
        sends := []
        result := Except.error ("[" ++ CMD_NAME ++ "] Failed to run command") }
  | _ =>
      match eventTxList with
      | some txList =>
          { registry := some (txList.filter sendOk)
            sends := txList
            result := Except.ok () }
      | none =>
          { registry := none
            sends := []
            result := Except.ok () }

/-- Helper: the survivors of a filter number the original length minus the
number of elements failing the predicate. -/
theorem length_filter_eq_sub {α : Type} (p : α → Bool) (l : List α) :
    (l.filter p).length = l.length - (l.filter (fun a => !p a)).length := by
  induction l with
  | nil => rfl
  | cons a l ih =>
      by_cases h : p a
      · have hl : (l.filter (fun a => !p a)).length ≤ l.length :=
          List.length_filter_le _ _
        simp [List.filter_cons, h, ih]
        omega
      · have hpa : p a = false := by
          cases hpa : p a
          · rfl
          · exact absurd hpa h
        simp [List.filter_cons, hpa, ih]

/-- C1: for every call of `update()` with broadcasting configured that reaches
the broadcast stage (the configured command, if any, did not fail to launch),
the registry is replaced by exactly the senders whose send succeeded; with
`N` senders of which `K` fail, exactly `N - K` remain; the survivors are a
sublist of the original list (original relative order); and `update` returns
`Ok` no matter which sends fail. The send-and-replace is a single atomic step
of the embedding, mirroring the mutex held across main.rs:205-206. -/
theorem update_broadcast_compacts {α : Type} (subCmd : Option CmdOutcome)
    (l : List α) (sendOk : α → Bool)
    (hcmd : subCmd ≠ some CmdOutcome.launchFailed) :
    (update subCmd (some l) sendOk).registry = some (l.filter sendOk)
    ∧ (l.filter sendOk).length
        = l.length - (l.filter (fun s => !sendOk s)).length
    ∧ List.Sublist (l.filter sendOk) l
    ∧ (update subCmd (some l) sendOk).result = Except.ok () := by
  have hstage : update subCmd (some l) sendOk =
      { registry := some (l.filter sendOk)
        sends := l
        result := Except.ok () } := by
    match subCmd with
    | none => rfl
    | some CmdOutcome.launchFailed => exact absurd rfl hcmd
    | some (CmdOutcome.exited s) => rfl
  refine ⟨by rw [hstage], length_filter_eq_sub sendOk l, List.filter_sublist l, by rw [hstage]⟩

/-- Witness for C1 at a concrete input: no command configured, four senders of
which the two odd ones fail their send; the two even ones survive in order
and the call returns `Ok`. -/
theorem update_broadcast_compacts_witness :
    ((none : Option CmdOutcome) ≠ some CmdOutcome.launchFailed)
    ∧ ((update (none : Option CmdOutcome) (some [0, 1, 2, 3])
          (fun s : Nat => s % 2 == 0)).registry
        = some ([0, 1, 2, 3].filter (fun s : Nat => s % 2 == 0))
      ∧ ([0, 1, 2, 3].filter (fun s : Nat => s % 2 == 0)).length
          = [0, 1, 2, 3].length
            - ([0, 1, 2, 3].filter (fun s : Nat => !(s % 2 == 0))).length
      ∧ List.Sublist ([0, 1, 2, 3].filter (fun s : Nat => s % 2 == 0)) [0, 1, 2, 3]
      ∧ (update (none : Option CmdOutcome) (some [0, 1, 2, 3])
          (fun s : Nat => s % 2 == 0)).result = Except.ok ()) :=
  ⟨by decide,
   update_broadcast_compacts (none : Option CmdOutcome) [0, 1, 2, 3]
     (fun s : Nat => s % 2 == 0) (by decide)⟩

/-- C8: with a command configured, `update()` starts it and waits for its
completion (the `cmd.status()` oracle); a launch failure yields the fatal
error `[spook] Failed to run command`, while any exit status of a launched
child — success or failure alike — never makes `update()` return an error. -/
theorem update_command_result {α : Type} (eventTxList : Option (List α))
    (sendOk : α → Bool) :
    (update (some CmdOutcome.launchFailed) eventTxList sendOk).result
      = Except.error "[spook] Failed to run command"
    ∧ ∀ status : Int,
        (update (some (CmdOutcome.exited status)) eventTxList sendOk).result
          = Except.ok () := by
  constructor
  · rfl
  · intro status
    match eventTxList with
    | some txList => rfl
    | none => rfl

/-- C9: with both a command and broadcasting configured, a launch failure
makes `update()` return the error before touching the registry: the registry
contents are unchanged and no send is attempted. -/
theorem update_launch_failure_preserves_registry {α : Type} (l : List α)
    (sendOk : α → Bool) :
    (update (some CmdOutcome.launchFailed) (some l) sendOk).registry = some l
    ∧ (update (some CmdOutcome.launchFailed) (some l) sendOk).sends = []
    ∧ (update (some CmdOutcome.launchFailed) (some l) sendOk).result
        = Except.error "[spook] Failed to run command" :=
  ⟨rfl, rfl, rfl⟩

/-!
## The classify/dispatch loop (main.rs:115-175)

One raw notice of the `notify` crate's debounced stream is a `DebouncedEvent`.
The loop body matches on the notice kind; `update()` calls are counted so
that "invokes update() exactly once" is a statement about the embedding.
Effects are oracles: `rearmOk p` is whether
`watcher.watch(p, RecursiveMode::NonRecursive)` succeeds (main.rs:136-137),
and `updResult k` is the `Result` of the `k`-th `update()` call of the run.
-/

/-- The debounced filesystem notices, `notify::DebouncedEvent`. Paths are
strings (`to_string_lossy` renderings). `fsError` carries the provider's
error message and optional path. -/
inductive DebouncedEvent
  | noticeWrite (path : String)
  | noticeRemove (path : String)
  | rescan
  | write (path : String)
  | chmod (path : String)
  | create (path : String)
  | remove (path : String)
  | rename (src : String) (dst : String)
  | fsError (msg : String) (path : Option String)
deriving DecidableEq

/-- State after processing some prefix of the notice stream: how many
`update()` calls were made so far, and whether the loop returned an error
(`some msg` embeds `return Err(msg)` / the `?` propagation in main.rs). -/
structure LoopOut where
  updCalls : Nat
  halt : Option String
deriving DecidableEq

/-- One `update()` invocation inside the loop, `k` calls having happened
before: the call counter advances and an `Err` from `update` halts the loop
(the `?` at main.rs:125 and the `.and_then(...)?` at main.rs:145). -/
def runUpdateAt (updResult : Nat → Except String Unit) (k : Nat) : LoopOut :=
  { updCalls := k + 1
    halt := match updResult k with
            | Except.ok _ => none
            | Except.error msg => some msg }

/-- One iteration of the main loop (the `match rx.recv().unwrap()` body,
main.rs:116-174), processing one notice with `k` update calls already made:
* `NoticeRemove`/`NoticeWrite`/`Rescan` are ignored (main.rs:118-120);
* `Write`/`Chmod`/`Create` invoke `update()` (main.rs:123-126);
* `Remove(path)` re-arms a non-recursive watch on the same path: on success
  `update()` is invoked, on failure the loop returns
  `[spook] <path>: File was deleted` (main.rs:129-146);
* `Rename(path, _)` always returns `[spook] <path>: File was renamed`,
  whatever the destination (main.rs:150-156);
* `Error(err, path)` returns `[spook] [<path>: ]<err>` (main.rs:159-173). -/
def mainStep (rearmOk : String → Bool) (updResult : Nat → Except String Unit)
    (k : Nat) : DebouncedEvent → LoopOut
  | DebouncedEvent.noticeRemove _ => { updCalls := k, halt := none }
  | DebouncedEvent.noticeWrite _ => { updCalls := k, halt := none }
  | DebouncedEvent.rescan => { updCalls := k, halt := none }
  | DebouncedEvent.write _ => runUpdateAt updResult k
  | DebouncedEvent.chmod _ => runUpdateAt updResult k
  | DebouncedEvent.create _ => runUpdateAt updResult k
  | DebouncedEvent.remove path =>
      if rearmOk path then runUpdateAt updResult k
      else { updCalls := k
             halt := some ("[" ++ CMD_NAME ++ "] " ++ path ++ ": File was deleted") }
  | DebouncedEvent.rename src _ =>
      { updCalls := k
        halt := some ("[" ++ CMD_NAME ++ "] " ++ src ++ ": File was renamed") }
  | DebouncedEvent.fsError msg path =>
      { updCalls := k
        halt := some ("[" ++ CMD_NAME ++ "] "
                        ++ (match path with
                            | some p => p ++ ": "
                            | none => "")
                        ++ msg) }

/-- The main loop over a finite prefix of the notice stream, starting with
`k` update calls already made. A `halt` stops all further processing (the
loop body `return`s / propagates the error); an exhausted list means the loop
is still blocked in `rx.recv()`. -/
def runLoop (rearmOk : String → Bool) (updResult : Nat → Except String Unit) :
    List DebouncedEvent → Nat → LoopOut
  | [], k => { updCalls := k, halt := none }
  | e :: es, k =>
      let out := mainStep rearmOk updResult k e
      match out.halt with
      | some msg => { updCalls := out.updCalls, halt := some msg }
      | none => runLoop rearmOk updResult es out.updCalls

/-- The notice kinds that neither halt the loop nor depend on an oracle:
ignored kinds plus the three modification kinds. -/
def benignKind : DebouncedEvent → Bool
  | DebouncedEvent.noticeWrite _ => true
  | DebouncedEvent.noticeRemove _ => true
  | DebouncedEvent.rescan => true
  | DebouncedEvent.write _ => true
  | DebouncedEvent.chmod _ => true
  | DebouncedEvent.create _ => true
  | _ => false

/-- The kinds classified as actual modifications (main.rs:123). -/
def modificationKind : DebouncedEvent → Bool
  | DebouncedEvent.write _ => true
  | DebouncedEvent.chmod _ => true
  | DebouncedEvent.create _ => true
  | _ => false

/-- Helper for C7, generalized over the starting call count: on a stream of
benign kinds with every `update()` succeeding, the loop never halts and the
call counter advances by exactly the number of modification notices. -/
theorem runLoop_benign_count (rearmOk : String → Bool)
    (updResult : Nat → Except String Unit)
    (hupd : ∀ n, updResult n = Except.ok ())
    (evs : List DebouncedEvent) (hbenign : ∀ e ∈ evs, benignKind e = true)
    (k : Nat) :
    runLoop rearmOk updResult evs k
      = { updCalls := k + evs.countP modificationKind, halt := none } := by
  induction evs generalizing k with
  | nil => simp [runLoop]
  | cons e es ih =>
      have he : benignKind e = true := hbenign e (List.mem_cons_self e es)
      have hes : ∀ x ∈ es, benignKind x = true := fun x hx =>
        hbenign x (List.mem_cons_of_mem e hx)
      cases e with
      | noticeWrite p =>
          simp [runLoop, mainStep, ih hes, List.countP_cons, modificationKind]
      | noticeRemove p =>
          simp [runLoop, mainStep, ih hes, List.countP_cons, modificationKind]
      | rescan =>
          simp [runLoop, mainStep, ih hes, List.countP_cons, modificationKind]
      | write p =>
          simp [runLoop, mainStep, runUpdateAt, hupd, ih hes, List.countP_cons,
            modificationKind]
          omega
      | chmod p =>
          simp [runLoop, mainStep, runUpdateAt, hupd, ih hes, List.countP_cons,
            modificationKind]
          omega
      | create p =>
          simp [runLoop, mainStep, runUpdateAt, hupd, ih hes, List.countP_cons,
            modificationKind]
          omega
      | remove p => simp [benignKind] at he
      | rename p q => simp [benignKind] at he
      | fsError m p => simp [benignKind] at he

/-- C7: per iteration, a `NoticeWrite`, `NoticeRemove` or `Rescan` notice
never invokes `update()` (the call counter is unchanged and the loop keeps
running), while each `Write`, `Chmod` or `Create` notice invokes `update()`
exactly once (the counter advances by one); consequently, over any notice
sequence of these kinds with `update()` succeeding, the total number of
`update()` calls is exactly the number of `Write`/`Chmod`/`Create` notices. -/
theorem classifier_update_invocations (rearmOk : String → Bool)
    (updResult : Nat → Except String Unit) (k : Nat) (p : String)
    (evs : List DebouncedEvent)
    (hupd : ∀ n, updResult n = Except.ok ())
    (hbenign : ∀ e ∈ evs, benignKind e = true) :
    mainStep rearmOk updResult k (DebouncedEvent.noticeWrite p)
        = { updCalls := k, halt := none }
    ∧ mainStep rearmOk updResult k (DebouncedEvent.noticeRemove p)
        = { updCalls := k, halt := none }
    ∧ mainStep rearmOk updResult k DebouncedEvent.rescan
        = { updCalls := k, halt := none }
    ∧ (mainStep rearmOk updResult k (DebouncedEvent.write p)).updCalls = k + 1
    ∧ (mainStep rearmOk updResult k (DebouncedEvent.chmod p)).updCalls = k + 1
    ∧ (mainStep rearmOk updResult k (DebouncedEvent.create p)).updCalls = k + 1
    ∧ runLoop rearmOk updResult evs 0
        = { updCalls := evs.countP modificationKind, halt := none } := by
  refine ⟨rfl, rfl, rfl, rfl, rfl, rfl, ?_⟩
  have h := runLoop_benign_count rearmOk updResult hupd evs hbenign 0
  simpa using h

/-- Witness for C7: a five-notice stream with two ignored kinds and three
modifications produces exactly three `update()` calls and no halt. -/
theorem classifier_update_invocations_witness :
    (∀ n, (fun _ : Nat => (Except.ok () : Except String Unit)) n = Except.ok ())
    ∧ (∀ e ∈ [DebouncedEvent.noticeWrite "a", DebouncedEvent.write "a",
              DebouncedEvent.rescan, DebouncedEvent.create "b",
              DebouncedEvent.chmod "a"], benignKind e = true)
    ∧ runLoop (fun _ => true) (fun _ => Except.ok ())
        [DebouncedEvent.noticeWrite "a", DebouncedEvent.write "a",
         DebouncedEvent.rescan, DebouncedEvent.create "b",
         DebouncedEvent.chmod "a"] 0
      = { updCalls := [DebouncedEvent.noticeWrite "a", DebouncedEvent.write "a",
                       DebouncedEvent.rescan, DebouncedEvent.create "b",
                       DebouncedEvent.chmod "a"].countP modificationKind,
          halt := none } := by
  refine ⟨fun n => rfl, by decide, ?_⟩
  exact (classifier_update_invocations (fun _ => true) (fun _ => Except.ok ())
    0 "a" _ (fun n => rfl) (by decide)).2.2.2.2.2.2

/-- C5: a `Remove(path)` notice re-arms a watch on the same path (the
`rearmOk` oracle embeds `watcher.watch(path, RecursiveMode::NonRecursive)`,
main.rs:136-137): on success the notice is actionable and `update()` is
invoked (once); on failure the loop returns the fatal message
`[spook] <path>: File was deleted` naming the path, and every subsequent
notice goes unprocessed. -/
theorem remove_rearm_classification (rearmOk : String → Bool)
    (updResult : Nat → Except String Unit) (k : Nat) (path : String)
    (rest : List DebouncedEvent) :
    (rearmOk path = true →
      mainStep rearmOk updResult k (DebouncedEvent.remove path)
        = runUpdateAt updResult k
      ∧ (mainStep rearmOk updResult k (DebouncedEvent.remove path)).updCalls
          = k + 1)
    ∧ (rearmOk path = false →
      mainStep rearmOk updResult k (DebouncedEvent.remove path)
        = { updCalls := k
            halt := some ("[spook] " ++ path ++ ": File was deleted") }
      ∧ runLoop rearmOk updResult (DebouncedEvent.remove path :: rest) k
          = { updCalls := k
              halt := some ("[spook] " ++ path ++ ": File was deleted") }) := by
  constructor
  · intro h
    constructor
    · simp [mainStep, h]
    · simp [mainStep, h, runUpdateAt]
  · intro h
    constructor
    · simp [mainStep, h, CMD_NAME]
    · simp [runLoop, mainStep, h, CMD_NAME]

/-- Witness for C5: with an oracle granting re-arm on "a" and refusing it on
"b", `Remove "a"` invokes `update()` and `Remove "b"` halts the loop with the
deletion message, skipping a later `Write` notice. -/
theorem remove_rearm_classification_witness :
    ((fun p : String => p == "a") "a" = true →
      mainStep (fun p : String => p == "a") (fun _ => Except.ok ()) 0
          (DebouncedEvent.remove "a")
        = runUpdateAt (fun _ => Except.ok ()) 0
      ∧ (mainStep (fun p : String => p == "a") (fun _ => Except.ok ()) 0
          (DebouncedEvent.remove "a")).updCalls = 0 + 1)
    ∧ ((fun p : String => p == "a") "b" = false →
      mainStep (fun p : String => p == "a") (fun _ => Except.ok ()) 0
          (DebouncedEvent.remove "b")
        = { updCalls := 0
            halt := some ("[spook] " ++ "b" ++ ": File was deleted") }
      ∧ runLoop (fun p : String => p == "a") (fun _ => Except.ok ())
          (DebouncedEvent.remove "b" :: [DebouncedEvent.write "c"]) 0
        = { updCalls := 0
            halt := some ("[spook] " ++ "b" ++ ": File was deleted") }) :=
  ⟨(remove_rearm_classification (fun p : String => p == "a")
      (fun _ => Except.ok ()) 0 "a" [DebouncedEvent.write "c"]).1,
   (remove_rearm_classification (fun p : String => p == "a")
      (fun _ => Except.ok ()) 0 "b" [DebouncedEvent.write "c"]).2⟩

/-- C6: a `Rename(src, dst)` notice, whatever the destination `dst`, makes
the loop return the fatal message `[spook] <src>: File was renamed` naming
the original path; `update()` is not invoked (the call counter is unchanged)
and every subsequent notice goes unprocessed. -/
theorem rename_always_fatal (rearmOk : String → Bool)
    (updResult : Nat → Except String Unit) (k : Nat) (src dst : String)
    (rest : List DebouncedEvent) :
    mainStep rearmOk updResult k (DebouncedEvent.rename src dst)
      = { updCalls := k
          halt := some ("[spook] " ++ src ++ ": File was renamed") }
    ∧ runLoop rearmOk updResult (DebouncedEvent.rename src dst :: rest) k
      = { updCalls := k
          halt := some ("[spook] " ++ src ++ ": File was renamed") } := by
  constructor
  · simp [mainStep, CMD_NAME]
  · simp [runLoop, mainStep, CMD_NAME]

/-!
## The subscriber session (server.rs:26-117, `serve_events`)

The socket is an oracle: `HsRead` is the outcome of one blocking
`stream.read` during the handshake, `ProbeResult` the outcome of one
non-blocking probe read in the streaming loop, and booleans stand for the
success of individual writes. `httparse::Request::parse` is an external
crate, abstracted as an oracle `parse` from the accumulated bytes to one of
error / needs-more-input / method-and-path-available (server.rs:46-55: an
`Ok` parse with both `req.method` and `req.path` set breaks the loop, an
`Ok` without them reads more, an `Err` returns).
-/

/-- Outcome of one blocking `stream.read` in the handshake loop
(server.rs:32-41): `Ok(n)` with the bytes read, `Ok(0)` (connection closed),
or `Err(_)`. -/
inductive HsRead
  | bytesRead (data : List Nat)
  | closedRead
  | errRead
deriving DecidableEq

/-- Abstracted outcome of `httparse` on the accumulated buffer. -/
inductive ParseOutcome
  | parseErr
  | needMore
  | gotReq (method : String) (path : String)
deriving DecidableEq

/-- How the handshake loop (server.rs:30-56) ends: the peer closed or a read
errored before a request was available (return, nothing written), the parse
failed (return, nothing written), or method and path became available. An
exhausted read list means the session is still blocked in `stream.read`. -/
inductive HandshakeEnd
  | peerGone
  | badParse
  | reqReady (method : String) (path : String)
  | noMoreInput
deriving DecidableEq

/-- The handshake loop (server.rs:30-56): read a chunk, append it to the
buffer, try to parse; repeat until close/error, parse failure, or both
method and path are available. -/
def runHandshake (parse : List Nat → ParseOutcome) :
    List HsRead → List Nat → HandshakeEnd
  | [], _ => HandshakeEnd.noMoreInput
  | HsRead.closedRead :: _, _ => HandshakeEnd.peerGone
  | HsRead.errRead :: _, _ => HandshakeEnd.peerGone
  | HsRead.bytesRead d :: rest, buf =>
      match parse (buf ++ d) with
      | ParseOutcome.parseErr => HandshakeEnd.badParse
      | ParseOutcome.needMore => runHandshake parse rest (buf ++ d)
      | ParseOutcome.gotReq m p => HandshakeEnd.reqReady m p

/-- After the handshake the session either streams events or is closed. -/
inductive SessionPhase
  | streaming
  | closedPhase
deriving DecidableEq

/-- Routing outcome: the byte strings passed to `stream.write`, in order,
and the phase the session enters. -/
structure RouteOut where
  writes : List String
  phase : SessionPhase
deriving DecidableEq

/-- The SSE preamble of server.rs:71-77. -/
def sse_preamble : String :=
  "HTTP/1.1 200 OK\r\nAccess-Control-Allow-Origin: *\r\nCache-Control: no-cache\r\nConnection: keep-alive\r\nContent-Type: text/event-stream\r\n\r\n"

/-- Routing on the parsed method and path (server.rs:58-80): a non-GET
method gets `405 Method Not Allowed` and the session ends (the write result
is ignored); a GET on a path other than `EVENT_PATH` gets `404 Not Found`
and the session ends; a GET on `EVENT_PATH` gets the SSE preamble and the
session enters streaming, unless the preamble write fails (`preambleOk`),
in which case it ends. -/
def routeRequest (method path : String) (preambleOk : Bool) : RouteOut :=
  if method ≠ "GET" then
    { writes := ["HTTP/1.1 405 Method Not Allowed\r\n\r\n"]
      phase := SessionPhase.closedPhase }
  else if path ≠ EVENT_PATH then
    { writes := ["HTTP/1.1 404 Not Found\r\n\r\n"]
      phase := SessionPhase.closedPhase }
  else if preambleOk then
    { writes := [sse_preamble], phase := SessionPhase.streaming }
  else
    { writes := [sse_preamble], phase := SessionPhase.closedPhase }

/-- Outcome of the non-blocking probe read at the top of each streaming
iteration (server.rs:99-111): `Ok(0)`, `Ok(n)` with `n ≥ 1`, an
`ErrorKind::WouldBlock` error, or any other error. -/
inductive ProbeResult
  | probeClosed
  | probeData
  | probeWouldBlock
  | probeErr
deriving DecidableEq

/-- One streaming iteration either terminates the session or sends a frame
and loops. -/
inductive StreamStep
  | halted
  | sentFrame (frame : String)
deriving DecidableEq

/-- The event frame of server.rs:114: `format!("event: {}\r\ndata\r\n\r\n",
event_name)`. -/
def eventFrame (eventName : String) : String :=
  "event: " ++ eventName ++ "\r\ndata\r\n\r\n"

/-- One iteration of the streaming loop after the `rx.recv()` wake
(server.rs:94-116): probe-read first; `Ok(0)` terminates without writing,
`WouldBlock` is ignored, any other error terminates without writing;
otherwise the frame is written. The frame write's result is discarded
(`let _ = stream.write(...)`, server.rs:115), so `wOk` cannot terminate the
iteration. -/
def streamIter (eventName : String) (probe : ProbeResult) (wOk : Bool) :
    StreamStep :=
  match probe, wOk with
  | ProbeResult.probeClosed, _ => StreamStep.halted
  | ProbeResult.probeErr, _ => StreamStep.halted
  | ProbeResult.probeData, _ => StreamStep.sentFrame (eventFrame eventName)
  | ProbeResult.probeWouldBlock, _ => StreamStep.sentFrame (eventFrame eventName)

/-- The streaming loop over a finite prefix of notification wakes, each with
its probe outcome and frame-write outcome; returns the frames written. An
exhausted list means the session is still blocked in `rx.recv()`. -/
def streamLoop (eventName : String) :
    List (ProbeResult × Bool) → List String
  | [] => []
  | (probe, wOk) :: rest =>
      match streamIter eventName probe wOk with
      | StreamStep.halted => []
      | StreamStep.sentFrame f => f :: streamLoop eventName rest

/-- The socket and parser oracles of one whole session. -/
structure SessionEnv where
  parse : List Nat → ParseOutcome
  reads : List HsRead
  preambleOk : Bool
  wakes : List (ProbeResult × Bool)

/-- A whole `serve_events` session (server.rs:26-117): run the handshake; on
close/error or parse failure return with nothing written; otherwise route,
and if streaming was entered, relay frames. Returns every byte string passed
to `stream.write`, in order. -/
def serve_events (env : SessionEnv) (eventName : String) : List String :=
  match runHandshake env.parse env.reads [] with
  | HandshakeEnd.peerGone => []
  | HandshakeEnd.badParse => []
  | HandshakeEnd.noMoreInput => []
  | HandshakeEnd.reqReady m p =>
      let r := routeRequest m p env.preambleOk
      r.writes ++ (match r.phase with
                   | SessionPhase.streaming => streamLoop eventName env.wakes
                   | SessionPhase.closedPhase => [])

/-- C2: for a session whose handshake parses into `(method, path)`: a
non-GET method writes exactly `HTTP/1.1 405 Method Not Allowed\r\n\r\n` and
closes; a GET on a path other than the event path writes exactly
`HTTP/1.1 404 Not Found\r\n\r\n` and closes; a GET on the event path whose
preamble write succeeds writes exactly the 200 preamble with the four SSE
headers and enters streaming. -/
theorem session_routing (method path : String) (preambleOk : Bool) :
    (method ≠ "GET" →
      routeRequest method path preambleOk
        = { writes := ["HTTP/1.1 405 Method Not Allowed\r\n\r\n"]
            phase := SessionPhase.closedPhase })
    ∧ (method = "GET" → path ≠ EVENT_PATH →
      routeRequest method path preambleOk
        = { writes := ["HTTP/1.1 404 Not Found\r\n\r\n"]
            phase := SessionPhase.closedPhase })
    ∧ (method = "GET" → path = EVENT_PATH →
      routeRequest method path true
        = { writes := [sse_preamble], phase := SessionPhase.streaming }) := by
  refine ⟨fun h => ?_, fun hm hp => ?_, fun hm hp => ?_⟩
  · simp [routeRequest, h]
  · simp [routeRequest, hm, hp]
  · simp [routeRequest, hm, hp]

/-- Witness for C2 at the three concrete requests of the spec: `POST
/events`, `GET /other`, `GET /events`. -/
theorem session_routing_witness :
    routeRequest "POST" "/events" true
      = { writes := ["HTTP/1.1 405 Method Not Allowed\r\n\r\n"]
          phase := SessionPhase.closedPhase }
    ∧ routeRequest "GET" "/other" true
      = { writes := ["HTTP/1.1 404 Not Found\r\n\r\n"]
          phase := SessionPhase.closedPhase }
    ∧ routeRequest "GET" "/events" true
      = { writes := [sse_preamble], phase := SessionPhase.streaming } :=
  ⟨(session_routing "POST" "/events" true).1 (by decide),
   (session_routing "GET" "/other" true).2.1 rfl (by decide),
   (session_routing "GET" "/events" true).2.2 rfl rfl⟩

/-- C3: in each streaming iteration the probe read comes first: a zero-byte
read terminates the session with no frame written, any non-WouldBlock read
error terminates it with no frame written, while a WouldBlock result or a
successful data read is followed by exactly one frame
`event: <name>\r\ndata\r\n\r\n`; and a failed frame write (`wOk = false`)
does not end the session in that iteration — the loop continues to the next
wake exactly as on a successful write. -/
theorem streaming_probe_and_frame (name : String) (wOk : Bool)
    (rest : List (ProbeResult × Bool)) :
    streamIter name ProbeResult.probeClosed wOk = StreamStep.halted
    ∧ streamIter name ProbeResult.probeErr wOk = StreamStep.halted
    ∧ streamIter name ProbeResult.probeWouldBlock wOk
        = StreamStep.sentFrame ("event: " ++ name ++ "\r\ndata\r\n\r\n")
    ∧ streamIter name ProbeResult.probeData wOk
        = StreamStep.sentFrame ("event: " ++ name ++ "\r\ndata\r\n\r\n")
    ∧ streamLoop name ((ProbeResult.probeWouldBlock, false) :: rest)
        = ("event: " ++ name ++ "\r\ndata\r\n\r\n") :: streamLoop name rest
    ∧ streamLoop name ((ProbeResult.probeClosed, wOk) :: rest) = [] := by
  refine ⟨?_, ?_, ?_, ?_, ?_, ?_⟩
  · cases wOk <;> rfl
  · cases wOk <;> rfl
  · cases wOk <;> rfl
  · cases wOk <;> rfl
  · rfl
  · cases wOk <;> rfl

/-- C10: a session whose accumulated request bytes fail to parse (the
`httparse` oracle returns an error — e.g. a malformed request line or more
than 16 headers) closes without writing any response bytes: no 400 or any
other status is emitted. -/
theorem parse_failure_silent (env : SessionEnv) (name : String)
    (hbad : runHandshake env.parse env.reads [] = HandshakeEnd.badParse) :
    serve_events env name = [] := by
  simp [serve_events, hbad]

/-- Witness for C10: a parser that rejects everything, one successful read;
the session emits nothing. -/
theorem parse_failure_silent_witness :
    runHandshake (fun _ => ParseOutcome.parseErr) [HsRead.bytesRead [80]] []
      = HandshakeEnd.badParse
    ∧ serve_events
        { parse := fun _ => ParseOutcome.parseErr
          reads := [HsRead.bytesRead [80]]
          preambleOk := true
          wakes := [] } "update" = [] :=
  ⟨rfl,
   parse_failure_silent
     { parse := fun _ => ParseOutcome.parseErr
       reads := [HsRead.bytesRead [80]]
       preambleOk := true
       wakes := [] } "update" rfl⟩

/-!
## Bind failure at server startup (C4)

`manage_connections` (server.rs:10-23) binds the listener with
`TcpListener::bind(...).expect("spook: error starting the server")`: a bind
failure panics. But main.rs:72-78 runs `manage_connections` on a thread
created with `thread::spawn`, while the main thread continues into the watch
loop. Under Rust's default unwind panic strategy, a panic in a spawned
thread prints its message and terminates only that thread; the process'
exit status is determined by the main thread alone. These runtime semantics
are part of the embedding below.
-/

/-- How a thread's body ends in the embedding. -/
inductive ThreadOutcome
  | panicked (msg : String)
  | acceptLoop
deriving DecidableEq

/-- The bind step of `manage_connections` (server.rs:11-13): on bind success
the function proceeds to accept connections indefinitely; on bind failure
`expect` panics the calling thread with
`concat!(env!("CARGO_PKG_NAME"), ": error starting the server")`. -/
def manage_connections (bindOk : Bool) : ThreadOutcome :=
  if bindOk then ThreadOutcome.acceptLoop
  else ThreadOutcome.panicked (CMD_NAME ++ ": error starting the server")

/-- main.rs:72-78: with broadcasting configured, `manage_connections` runs on
a thread created with `thread::spawn`; it is not the main thread. -/
def serverRunsOnMainThread : Bool := false

/-- Rust runtime semantics in the embedding: with the default unwind panic
strategy a panic aborts the whole process only when it unwinds the main
thread; a panic in a spawned thread terminates that thread alone and leaves
the process running with its exit status untouched. -/
def panicAbortsProcess (onMainThread : Bool) : Bool := onMainThread

/-- Whether a bind failure in `manage_connections` aborts the whole process:
the panic it raises aborts the process exactly when it happens on the main
thread. -/
def processAbortsOnBindFailure : Bool :=
  panicAbortsProcess serverRunsOnMainThread

/-- C4 counterexample: on bind failure `manage_connections` does panic with
the descriptive message, but because it runs on a spawned thread the panic
does not abort the process: the claim that the entire process aborts with a
non-zero exit status is false. -/
theorem bind_failure_not_process_fatal :
    manage_connections false
      = ThreadOutcome.panicked "spook: error starting the server"
    ∧ processAbortsOnBindFailure = false := by
  constructor
  · rfl
  · rfl

/-- C4 amended: a bind failure panics the spawned acceptor thread with the
single descriptive message `spook: error starting the server`, so no
connection is ever accepted; but the acceptor runs on a spawned thread, not
the main thread, so the process as a whole keeps running (the watch loop is
unaffected and the exit status is not changed by the panic). -/
theorem bind_failure_panics_acceptor_thread :
    manage_connections false
      = ThreadOutcome.panicked (CMD_NAME ++ ": error starting the server")
    ∧ manage_connections true = ThreadOutcome.acceptLoop
    ∧ serverRunsOnMainThread = false
    ∧ panicAbortsProcess serverRunsOnMainThread = false := by
  exact ⟨rfl, rfl, rfl, rfl⟩

end Spook
